import Mathlib

/-!
Shallow embedding of the LPS_app active-entity hierarchy and pick-eligibility
engine.  The data model follows the drizzle schema (tables `seasons`, `rounds`,
`gameWeeks`, `teams`, `fixtures`, `picks`), the storage operations follow
`DatabaseStorage` (`setActiveSeason`, `setActiveRound`, `setActiveGameWeek`,
`getActiveSeason`, `getActiveRound`, `getActiveGameWeek`,
`getFixturesByGameWeek`, `getGameWeeksByRound`, `getPicksByGameWeeks`,
`createPick`), and the endpoint logic follows `registerRoutes`
(`GET /api/available-teams`, `POST /api/picks`).  Timestamps are modelled as
integers, SQL result sets as lists in table order.
-/

namespace LPS

/-- Row of the `seasons` table. -/
structure Season where
  id : Nat
  name : String
  startDate : Int
  endDate : Int
  isActive : Bool
deriving Repr, DecidableEq

/-- Row of the `rounds` table (`number` unique within a season). -/
structure Round where
  id : Nat
  seasonId : Nat
  number : Nat
  isActive : Bool
deriving Repr, DecidableEq

/-- Row of the `game_weeks` table (`number` unique within a round). -/
structure GameWeek where
  id : Nat
  roundId : Nat
  number : Nat
  deadline : Int
  isActive : Bool
deriving Repr, DecidableEq

/-- Row of the `teams` table. -/
structure Team where
  id : Nat
  name : String
  short_name : String
  tla : String
  crest : String
deriving Repr, DecidableEq

/-- Row of the `fixtures` table: a match with optional game-week assignment. -/
structure Fixture where
  id : Nat
  external_id : Option Nat
  game_week_id : Option Nat
  home_team_id : Nat
  away_team_id : Nat
  home_score : Option Int
  away_score : Option Int
  kickoff : Int
  status : String
  selected : Bool
  winner : Option String
  external_season_id : Option Nat
  season_id : Nat
  round_id : Option Nat
deriving Repr, DecidableEq

/-- Row of the `picks` table (unique constraint on `(userId, gameWeekId)`). -/
structure Pick where
  id : Nat
  userId : Nat
  teamId : Nat
  gameWeekId : Nat
  roundId : Nat
  seasonId : Nat
  fixtureId : Nat
  externalId : Option Nat
  isHomeTeam : Bool
  isCorrect : Option Bool
  pickedAt : Int
deriving Repr, DecidableEq

/-- Database state: the six tables plus the serial id counter for `picks`. -/
structure DB where
  seasons : List Season
  rounds : List Round
  gameWeeks : List GameWeek
  teams : List Team
  fixtures : List Fixture
  picks : List Pick
  nextPickId : Nat
deriving Repr, DecidableEq

/-- Models `SELECT ... ORDER BY number LIMIT 1`: first row of minimal `number`
(ties resolved to the earlier row, which cannot arise under the schema's
uniqueness constraints). -/
def minStep (num : α → Nat) (acc : Option α) (x : α) : Option α :=
  match acc with
  | none => some x
  | some b => if num x < num b then some x else acc

def minByNum (num : α → Nat) (l : List α) : Option α :=
  l.foldl (minStep num) none

/-- The first round of a season, by ascending `number`
(`select from rounds where seasonId = sid orderBy number`). -/
def firstRoundOfSeason (rounds : List Round) (sid : Nat) : Option Round :=
  minByNum Round.number (rounds.filter (fun r => r.seasonId == sid))

/-- The first game week of a round, by ascending `number`
(`select from gameWeeks where roundId = rid orderBy number`). -/
def firstGameWeekOfRound (gameWeeks : List GameWeek) (rid : Nat) : Option GameWeek :=
  minByNum GameWeek.number (gameWeeks.filter (fun g => g.roundId == rid))

/-- Embeds `DatabaseStorage.setActiveSeason`: deactivate all seasons, activate the
selected one, deactivate all rounds and game weeks, then activate the first
round of the season and, if present, the first game week of that round. -/
def setActiveSeason (db : DB) (id : Nat) : Except String DB :=
  match db.seasons.find? (fun s => s.id == id) with
  | none => .error "Season not found"
  | some _ =>
      let seasons :=
        (db.seasons.map (fun s => { s with isActive := false })).map
          (fun s => if s.id == id then { s with isActive := true } else s)
      let rounds0 := db.rounds.map (fun r => { r with isActive := false })
      let gameWeeks0 := db.gameWeeks.map (fun g => { g with isActive := false })
      match firstRoundOfSeason rounds0 id with
      | none => .ok { db with seasons := seasons, rounds := rounds0, gameWeeks := gameWeeks0 }
      | some firstRound =>
          let rounds :=
            rounds0.map (fun r => if r.id == firstRound.id then { r with isActive := true } else r)
          match firstGameWeekOfRound gameWeeks0 firstRound.id with
          | none => .ok { db with seasons := seasons, rounds := rounds, gameWeeks := gameWeeks0 }
          | some firstGameWeek =>
              let gameWeeks := gameWeeks0.map
                (fun g => if g.id == firstGameWeek.id then { g with isActive := true } else g)
              .ok { db with seasons := seasons, rounds := rounds, gameWeeks := gameWeeks }

/-- Embeds `DatabaseStorage.setActiveRound`: deactivate all rounds across all
seasons, activate the selected one, deactivate all game weeks, then activate
the first game week of this round if one exists.  Seasons are untouched. -/
def setActiveRound (db : DB) (id : Nat) : Except String DB :=
  match db.rounds.find? (fun r => r.id == id) with
  | none => .error "Round not found"
  | some _ =>
      let rounds :=
        (db.rounds.map (fun r => { r with isActive := false })).map
          (fun r => if r.id == id then { r with isActive := true } else r)
      let gameWeeks0 := db.gameWeeks.map (fun g => { g with isActive := false })
      match firstGameWeekOfRound gameWeeks0 id with
      | none => .ok { db with rounds := rounds, gameWeeks := gameWeeks0 }
      | some firstGameWeek =>
          let gameWeeks := gameWeeks0.map
            (fun g => if g.id == firstGameWeek.id then { g with isActive := true } else g)
          .ok { db with rounds := rounds, gameWeeks := gameWeeks }

/-- Embeds `DatabaseStorage.setActiveGameWeek`: deactivate all game weeks, activate
the selected one.  Rounds and seasons are untouched. -/
def setActiveGameWeek (db : DB) (id : Nat) : Except String DB :=
  match db.gameWeeks.find? (fun g => g.id == id) with
  | none => .error "Game week not found"
  | some _ =>
      let gameWeeks :=
        (db.gameWeeks.map (fun g => { g with isActive := false })).map
          (fun g => if g.id == id then { g with isActive := true } else g)
      .ok { db with gameWeeks := gameWeeks }

/-- Embeds `DatabaseStorage.getActiveSeason`. -/
def getActiveSeason (db : DB) : Option Season :=
  db.seasons.find? (fun s => s.isActive)

/-- Embeds `DatabaseStorage.getActiveRound` (scoped to a season id). -/
def getActiveRound (db : DB) (seasonId : Nat) : Option Round :=
  db.rounds.find? (fun r => r.seasonId == seasonId && r.isActive)

/-- Embeds `DatabaseStorage.getActiveGameWeek` (scoped to a round id). -/
def getActiveGameWeek (db : DB) (roundId : Nat) : Option GameWeek :=
  db.gameWeeks.find? (fun g => g.roundId == roundId && g.isActive)

/-- Embeds `DatabaseStorage.getFixturesByGameWeek`. -/
def getFixturesByGameWeek (db : DB) (gameWeekId : Nat) : List Fixture :=
  db.fixtures.filter (fun f => f.game_week_id == some gameWeekId)

/-- Embeds `DatabaseStorage.getGameWeeksByRound`. -/
def getGameWeeksByRound (db : DB) (roundId : Nat) : List GameWeek :=
  db.gameWeeks.filter (fun g => g.roundId == roundId)

/-- Embeds `DatabaseStorage.getPicksByGameWeeks`: picks of a user across a list of
game-week ids. -/
def getPicksByGameWeeks (db : DB) (userId : Nat) (gameWeekIds : List Nat) : List Pick :=
  db.picks.filter (fun p => p.userId == userId && gameWeekIds.contains p.gameWeekId)

/-- Embeds `DatabaseStorage.createPick`: insert into `picks`.  The drizzle schema
declares `unique().on(t.userId, t.gameWeekId)`, so the insert raises a
uniqueness violation when a pick with the same `(userId, gameWeekId)` pair
already exists; otherwise the row is appended. -/
def createPick (db : DB) (p : Pick) : Except String (DB × Pick) :=
  if db.picks.any (fun q => q.userId == p.userId && q.gameWeekId == p.gameWeekId) then
    .error "DuplicatePick"
  else
    .ok ({ db with picks := db.picks ++ [p], nextPickId := db.nextPickId + 1 }, p)

/-- A row of the `GET /api/available-teams` response: a team spread together
with the computed `isAvailable` flag. -/
structure AvailableTeam where
  team : Team
  isAvailable : Bool
deriving Repr, DecidableEq

/-- Embeds `GET /api/available-teams`: resolve the active season, round and game
week; pool the home/away team ids of the active game week's fixtures; fetch
the user's picks across the active round's game weeks; return the teams of
the pool flagged with `isAvailable = !previouslyPicked`, in team-table
order. -/
def availableTeams (db : DB) (userId : Nat) : Except String (List AvailableTeam) :=
  match getActiveSeason db with
  | none => .error "No active season"
  | some season =>
      match getActiveRound db season.id with
      | none => .error "No active round"
      | some round =>
          match getActiveGameWeek db round.id with
          | none => .error "No active game week"
          | some gameWeek =>
              let fixtures := getFixturesByGameWeek db gameWeek.id
              let teamIds :=
                fixtures.map Fixture.home_team_id ++ fixtures.map Fixture.away_team_id
              let roundGameWeekIds := (getGameWeeksByRound db round.id).map GameWeek.id
              let previousPicks := getPicksByGameWeeks db userId roundGameWeekIds
              let previouslyPickedTeamIds := previousPicks.map Pick.teamId
              .ok ((db.teams.filter (fun t => teamIds.contains t.id)).map
                (fun t => ⟨t, !previouslyPickedTeamIds.contains t.id⟩))

/-- Embeds `POST /api/picks`: resolve the active season, round and game week, fetch
the caller-supplied fixture by id, check the picked team is its home or away
side, then insert a pick carrying the resolved context ids, `pickedAt = now`
and `isCorrect = null`. -/
def submitPick (db : DB) (userId teamId fixtureId : Nat) (now : Int) :
    Except String (DB × Pick) :=
  match getActiveSeason db with
  | none => .error "No active season"
  | some season =>
      match getActiveRound db season.id with
      | none => .error "No active round"
      | some round =>
          match getActiveGameWeek db round.id with
          | none => .error "No active game week"
          | some gameWeek =>
              match db.fixtures.find? (fun f => f.id == fixtureId) with
              | none => .error "Fixture not found"
              | some fixture =>
                  let isHomeTeam := fixture.home_team_id == teamId
                  let isAwayTeam := fixture.away_team_id == teamId
                  if !isHomeTeam && !isAwayTeam then
                    .error "Selected team is not part of the fixture"
                  else
                    createPick db
                      { id := db.nextPickId
                        userId := userId
                        teamId := teamId
                        gameWeekId := gameWeek.id
                        roundId := round.id
                        seasonId := season.id
                        fixtureId := fixtureId
                        externalId := fixture.external_id
                        isHomeTeam := isHomeTeam
                        isCorrect := none
                        pickedAt := now }

/-- An administrative activation request, as routed by
`POST /api/seasons/:id/activate`, `/api/rounds/:id/activate`,
`/api/game-weeks/:id/activate`. -/
inductive AdminOp where
  | activateSeason (id : Nat)
  | activateRound (id : Nat)
  | activateGameWeek (id : Nat)
deriving Repr, DecidableEq

/-- Apply one activation request; a failed request (thrown error) leaves the
state unchanged. -/
def applyOp (db : DB) : AdminOp → DB
  | .activateSeason id =>
      match setActiveSeason db id with
      | .ok db1 => db1
      | .error _ => db
  | .activateRound id =>
      match setActiveRound db id with
      | .ok db1 => db1
      | .error _ => db
  | .activateGameWeek id =>
      match setActiveGameWeek db id with
      | .ok db1 => db1
      | .error _ => db

/-- Run a sequence of activation requests. -/
def runOps (db : DB) (ops : List AdminOp) : DB :=
  ops.foldl applyOp db

/-- Primary keys are unique in every hierarchy table (serial columns). -/
def WellKeyed (db : DB) : Prop :=
  (db.seasons.map Season.id).Nodup ∧ (db.rounds.map Round.id).Nodup ∧
    (db.gameWeeks.map GameWeek.id).Nodup

instance : DecidablePred WellKeyed := fun db => by
  unfold WellKeyed; infer_instance

/-- At most one entity per hierarchy level carries `isActive = true`. -/
def ActiveInvariant (db : DB) : Prop :=
  db.seasons.countP Season.isActive ≤ 1 ∧ db.rounds.countP Round.isActive ≤ 1 ∧
    db.gameWeeks.countP GameWeek.isActive ≤ 1

instance : DecidablePred ActiveInvariant := fun db => by
  unfold ActiveInvariant; infer_instance

/-! ### Generic lemmas about the `ORDER BY number LIMIT 1` fold -/

theorem foldl_minStep_mem (num : α → Nat) :
    ∀ (l : List α) (acc : Option α) (a : α),
      l.foldl (minStep num) acc = some a → acc = some a ∨ a ∈ l := by
  intro l
  induction l with
  | nil => intro acc a h; exact Or.inl h
  | cons x xs ih =>
      intro acc a h
      rcases ih (minStep num acc x) a h with h1 | h1
      · cases acc with
        | none =>
            simp only [minStep] at h1
            exact Or.inr (by rw [← Option.some.injEq] at h1; simp_all)
        | some b =>
            simp only [minStep] at h1
            by_cases hlt : num x < num b
            · simp only [if_pos hlt, Option.some.injEq] at h1
              exact Or.inr (h1 ▸ List.mem_cons_self x xs)
            · simp only [if_neg hlt] at h1
              exact Or.inl h1
      · exact Or.inr (List.mem_cons_of_mem x h1)

theorem foldl_minStep_le (num : α → Nat) :
    ∀ (l : List α) (acc : Option α) (a : α),
      l.foldl (minStep num) acc = some a →
        (∀ b, acc = some b → num a ≤ num b) ∧ ∀ x ∈ l, num a ≤ num x := by
  intro l
  induction l with
  | nil =>
      intro acc a h
      refine ⟨fun b hb => ?_, fun x hx => absurd hx (List.not_mem_nil x)⟩
      simp only [List.foldl_nil] at h
      rw [hb] at h
      exact le_of_eq (congrArg num (Option.some.inj h)).symm
  | cons x xs ih =>
      intro acc a h
      have hstep := ih (minStep num acc x) a h
      cases acc with
      | none =>
          refine ⟨fun b hb => by simp_all, fun y hy => ?_⟩
          rcases List.mem_cons.mp hy with rfl | hy2
          · exact hstep.1 y rfl
          · exact hstep.2 y hy2
      | some b =>
          by_cases hlt : num x < num b
          · have hx : minStep num (some b) x = some x := by simp [minStep, hlt]
            rw [hx] at hstep
            refine ⟨fun c hc => ?_, fun y hy => ?_⟩
            · have : num a ≤ num x := hstep.1 x rfl
              exact le_trans this (le_of_lt (Option.some.inj hc ▸ hlt))
            · rcases List.mem_cons.mp hy with rfl | hy2
              · exact hstep.1 y rfl
              · exact hstep.2 y hy2
          · have hx : minStep num (some b) x = some b := by simp [minStep, hlt]
            rw [hx] at hstep
            refine ⟨fun c hc => Option.some.inj hc ▸ hstep.1 b rfl, fun y hy => ?_⟩
            rcases List.mem_cons.mp hy with rfl | hy2
            · exact le_trans (hstep.1 b rfl) (Nat.le_of_not_lt hlt)
            · exact hstep.2 y hy2

theorem foldl_minStep_some (num : α → Nat) :
    ∀ (l : List α) (b : α), ∃ c, l.foldl (minStep num) (some b) = some c := by
  intro l
  induction l with
  | nil => intro b; exact ⟨b, rfl⟩
  | cons x xs ih =>
      intro b
      simp only [List.foldl_cons]
      by_cases hlt : num x < num b
      · simpa [minStep, hlt] using ih x
      · simpa [minStep, hlt] using ih b

theorem minByNum_mem {num : α → Nat} {l : List α} {a : α}
    (h : minByNum num l = some a) : a ∈ l := by
  rcases foldl_minStep_mem num l none a h with h1 | h1
  · exact absurd h1 (by simp)
  · exact h1

theorem minByNum_le {num : α → Nat} {l : List α} {a : α}
    (h : minByNum num l = some a) : ∀ x ∈ l, num a ≤ num x :=
  (foldl_minStep_le num l none a h).2

theorem minByNum_isSome {num : α → Nat} {l : List α} (h : l ≠ []) :
    ∃ a, minByNum num l = some a := by
  cases l with
  | nil => exact absurd rfl h
  | cons x xs =>
      unfold minByNum
      simp only [List.foldl_cons, minStep]
      exact foldl_minStep_some num xs x

/-! ### Generic counting lemmas for deactivate-all / activate-by-id updates -/

theorem countP_map_eq_zero (l : List α) (f : α → α) (p : α → Bool)
    (hf : ∀ x, p (f x) = false) : (l.map f).countP p = 0 := by
  rw [List.countP_map]
  exact List.countP_eq_zero.mpr (fun x _ => by simp [Function.comp, hf])

theorem countP_activate_le_one (l : List α) (key : α → Nat) (tid : Nat)
    (upd : α → α) (p : α → Bool)
    (h0 : ∀ x ∈ l, p x = false) (hupd : ∀ x, p (upd x) = true)
    (hkey : (l.map key).Nodup) :
    (l.map (fun x => if key x == tid then upd x else x)).countP p ≤ 1 := by
  rw [List.countP_map]
  have hcongr : l.countP ((fun x => p (if key x == tid then upd x else x))) =
      l.countP (fun x => key x == tid) := by
    refine List.countP_congr (fun x hx => ?_)
    by_cases hc : key x == tid
    · simp [hc, hupd x]
    · simp [hc, h0 x hx]
  have hcount : l.countP (fun x => key x == tid) ≤ 1 := by
    have := List.nodup_iff_count_le_one.mp hkey tid
    rw [List.count, List.countP_map] at this
    exact this
  calc l.countP ((p ∘ fun x => if key x == tid then upd x else x)) =
        l.countP (fun x => key x == tid) := hcongr
    _ ≤ 1 := hcount

theorem map_key_of_preserve {α β} (l : List α) (f : α → α) (key : α → β)
    (h : ∀ x, key (f x) = key x) : (l.map f).map key = l.map key := by
  rw [List.map_map]
  exact List.map_congr_left (fun x _ => h x)

theorem nodup_map_key_of_preserve {α β} (l : List α) (f : α → α) (key : α → β)
    (h : ∀ x, key (f x) = key x) (hn : (l.map key).Nodup) : ((l.map f).map key).Nodup := by
  rw [map_key_of_preserve l f key h]
  exact hn

/-! ### Invariant preservation of the activation operations -/

theorem setActiveSeason_ok_inv (db db' : DB) (id : Nat)
    (hk : WellKeyed db) (h : setActiveSeason db id = .ok db') :
    WellKeyed db' ∧ ActiveInvariant db' := by
  obtain ⟨hks, hkr, hkg⟩ := hk
  unfold setActiveSeason at h
  have hseasons_key :
      (((db.seasons.map (fun s => { s with isActive := false })).map
        (fun s => if s.id == id then { s with isActive := true } else s)).map Season.id) =
        db.seasons.map Season.id := by
    simp only [List.map_map]
    refine List.map_congr_left (fun x _ => ?_)
    dsimp only [Function.comp]
    split <;> rfl
  have hseasons_cnt :
      ((db.seasons.map (fun s => { s with isActive := false })).map
        (fun s => if s.id == id then { s with isActive := true } else s)).countP
          Season.isActive ≤ 1 := by
    refine countP_activate_le_one _ Season.id id _ Season.isActive ?_ (fun x => rfl) ?_
    · intro x hx
      rcases List.mem_map.mp hx with ⟨y, _, rfl⟩
      rfl
    · simp only [List.map_map]
      have : (db.seasons.map (Season.id ∘ fun s => { s with isActive := false })) =
          db.seasons.map Season.id := List.map_congr_left (fun x _ => rfl)
      rw [this]
      exact hks
  have hrounds0_key : ((db.rounds.map (fun r => { r with isActive := false })).map Round.id) =
      db.rounds.map Round.id := by
    simp only [List.map_map]
    exact List.map_congr_left (fun x _ => rfl)
  have hgw0_key : ((db.gameWeeks.map (fun g => { g with isActive := false })).map GameWeek.id) =
      db.gameWeeks.map GameWeek.id := by
    simp only [List.map_map]
    exact List.map_congr_left (fun x _ => rfl)
  split at h
  · exact absurd h (by simp)
  · dsimp only at h
    split at h
    · cases h
      refine ⟨⟨?_, ?_, ?_⟩, ?_, ?_, ?_⟩
      · exact hseasons_key ▸ hks
      · exact hrounds0_key ▸ hkr
      · exact hgw0_key ▸ hkg
      · exact hseasons_cnt
      · exact le_trans (le_of_eq (countP_map_eq_zero _ _ _ (fun x => rfl))) (by omega)
      · exact le_trans (le_of_eq (countP_map_eq_zero _ _ _ (fun x => rfl))) (by omega)
    · rename_i firstRound hfr
      have hrounds_key :
          (((db.rounds.map (fun r => { r with isActive := false })).map
            (fun r => if r.id == firstRound.id then { r with isActive := true } else r)).map
              Round.id) = db.rounds.map Round.id := by
        simp only [List.map_map]
        refine List.map_congr_left (fun x _ => ?_)
        dsimp only [Function.comp]
        split <;> rfl
      have hrounds_cnt :
          ((db.rounds.map (fun r => { r with isActive := false })).map
            (fun r => if r.id == firstRound.id then { r with isActive := true } else r)).countP
              Round.isActive ≤ 1 := by
        refine countP_activate_le_one _ Round.id firstRound.id _ Round.isActive ?_
          (fun x => rfl) ?_
        · intro x hx
          rcases List.mem_map.mp hx with ⟨y, _, rfl⟩
          rfl
        · exact hrounds0_key ▸ hkr
      split at h
      · cases h
        refine ⟨⟨?_, ?_, ?_⟩, ?_, ?_, ?_⟩
        · exact hseasons_key ▸ hks
        · exact hrounds_key ▸ hkr
        · exact hgw0_key ▸ hkg
        · exact hseasons_cnt
        · exact hrounds_cnt
        · exact le_trans (le_of_eq (countP_map_eq_zero _ _ _ (fun x => rfl))) (by omega)
      · rename_i firstGameWeek hfg
        cases h
        refine ⟨⟨?_, ?_, ?_⟩, ?_, ?_, ?_⟩
        · exact hseasons_key ▸ hks
        · exact hrounds_key ▸ hkr
        · exact nodup_map_key_of_preserve _ _ _ (fun x => by split <;> rfl)
            (hgw0_key ▸ hkg)
        · exact hseasons_cnt
        · exact hrounds_cnt
        · refine countP_activate_le_one _ GameWeek.id firstGameWeek.id _ GameWeek.isActive ?_
            (fun x => rfl) ?_
          · intro x hx
            rcases List.mem_map.mp hx with ⟨y, _, rfl⟩
            rfl
          · exact hgw0_key ▸ hkg

theorem setActiveRound_ok_inv (db db' : DB) (id : Nat)
    (hk : WellKeyed db) (hseas : db.seasons.countP Season.isActive ≤ 1)
    (h : setActiveRound db id = .ok db') :
    WellKeyed db' ∧ ActiveInvariant db' := by
  obtain ⟨hks, hkr, hkg⟩ := hk
  unfold setActiveRound at h
  have hrounds0_key : ((db.rounds.map (fun r => { r with isActive := false })).map Round.id) =
      db.rounds.map Round.id := by
    simp only [List.map_map]
    exact List.map_congr_left (fun x _ => rfl)
  have hgw0_key : ((db.gameWeeks.map (fun g => { g with isActive := false })).map GameWeek.id) =
      db.gameWeeks.map GameWeek.id := by
    simp only [List.map_map]
    exact List.map_congr_left (fun x _ => rfl)
  have hrounds_key :
      (((db.rounds.map (fun r => { r with isActive := false })).map
        (fun r => if r.id == id then { r with isActive := true } else r)).map Round.id) =
        db.rounds.map Round.id := by
    simp only [List.map_map]
    refine List.map_congr_left (fun x _ => ?_)
    dsimp only [Function.comp]
    split <;> rfl
  have hrounds_cnt :
      ((db.rounds.map (fun r => { r with isActive := false })).map
        (fun r => if r.id == id then { r with isActive := true } else r)).countP
          Round.isActive ≤ 1 := by
    refine countP_activate_le_one _ Round.id id _ Round.isActive ?_ (fun x => rfl) ?_
    · intro x hx
      rcases List.mem_map.mp hx with ⟨y, _, rfl⟩
      rfl
    · exact hrounds0_key ▸ hkr
  split at h
  · exact absurd h (by simp)
  · dsimp only at h
    split at h
    · cases h
      refine ⟨⟨hks, ?_, ?_⟩, hseas, ?_, ?_⟩
      · exact hrounds_key ▸ hkr
      · exact hgw0_key ▸ hkg
      · exact hrounds_cnt
      · exact le_trans (le_of_eq (countP_map_eq_zero _ _ _ (fun x => rfl))) (by omega)
    · rename_i firstGameWeek hfg
      cases h
      refine ⟨⟨hks, ?_, ?_⟩, hseas, ?_, ?_⟩
      · exact hrounds_key ▸ hkr
      · exact nodup_map_key_of_preserve _ _ _ (fun x => by split <;> rfl) (hgw0_key ▸ hkg)
      · exact hrounds_cnt
      · refine countP_activate_le_one _ GameWeek.id firstGameWeek.id _ GameWeek.isActive ?_
          (fun x => rfl) ?_
        · intro x hx
          rcases List.mem_map.mp hx with ⟨y, _, rfl⟩
          rfl
        · exact hgw0_key ▸ hkg

theorem setActiveGameWeek_ok_inv (db db' : DB) (id : Nat)
    (hk : WellKeyed db) (hseas : db.seasons.countP Season.isActive ≤ 1)
    (hrnd : db.rounds.countP Round.isActive ≤ 1)
    (h : setActiveGameWeek db id = .ok db') :
    WellKeyed db' ∧ ActiveInvariant db' := by
  obtain ⟨hks, hkr, hkg⟩ := hk
  unfold setActiveGameWeek at h
  have hgw0_key : ((db.gameWeeks.map (fun g => { g with isActive := false })).map GameWeek.id) =
      db.gameWeeks.map GameWeek.id := by
    simp only [List.map_map]
    exact List.map_congr_left (fun x _ => rfl)
  split at h
  · exact absurd h (by simp)
  · dsimp only at h
    cases h
    refine ⟨⟨hks, hkr, ?_⟩, hseas, hrnd, ?_⟩
    · exact nodup_map_key_of_preserve _ _ _ (fun x => by split <;> rfl) (hgw0_key ▸ hkg)
    · refine countP_activate_le_one _ GameWeek.id id _ GameWeek.isActive ?_ (fun x => rfl) ?_
      · intro x hx
        rcases List.mem_map.mp hx with ⟨y, _, rfl⟩
        rfl
      · exact hgw0_key ▸ hkg

theorem applyOp_inv (db : DB) (o : AdminOp)
    (hk : WellKeyed db) (hinv : ActiveInvariant db) :
    WellKeyed (applyOp db o) ∧ ActiveInvariant (applyOp db o) := by
  obtain ⟨h1, h2, h3⟩ := hinv
  cases o with
  | activateSeason id =>
      simp only [applyOp]
      split
      · rename_i db1 hok
        exact setActiveSeason_ok_inv db db1 id hk hok
      · exact ⟨hk, h1, h2, h3⟩
  | activateRound id =>
      simp only [applyOp]
      split
      · rename_i db1 hok
        exact setActiveRound_ok_inv db db1 id hk h1 hok
      · exact ⟨hk, h1, h2, h3⟩
  | activateGameWeek id =>
      simp only [applyOp]
      split
      · rename_i db1 hok
        exact setActiveGameWeek_ok_inv db db1 id hk h1 h2 hok
      · exact ⟨hk, h1, h2, h3⟩

/-! ### Example states used to instantiate theorems with hypotheses -/

/-- Scenario-A shaped state: one season, two rounds, three game weeks. -/
def exDb : DB where
  seasons := [⟨1, "2024/25", 0, 100, false⟩]
  rounds := [⟨1, 1, 1, false⟩, ⟨2, 1, 2, false⟩]
  gameWeeks := [⟨1, 1, 1, 10, false⟩, ⟨2, 1, 2, 20, false⟩, ⟨3, 2, 1, 30, false⟩]
  teams := []
  fixtures := []
  picks := []
  nextPickId := 1

/-- Claim C1: Any sequence of activation operations started from a state with at
most one active entity per level (and with unique primary keys, as the serial
columns guarantee) ends in a state with at most one active Season, at most one
active Round globally and at most one active GameWeek globally. -/
theorem activation_sequences_keep_single_active (db : DB) (ops : List AdminOp)
    (hk : WellKeyed db) (hinv : ActiveInvariant db) :
    ActiveInvariant (runOps db ops) := by
  induction ops generalizing db with
  | nil => exact hinv
  | cons o rest ih =>
      have h := applyOp_inv db o hk hinv
      exact ih (applyOp db o) h.1 h.2

/-- Witness for C1 at a concrete state and operation sequence. -/
theorem activation_sequences_keep_single_active_witness :
    WellKeyed exDb ∧ ActiveInvariant exDb ∧
      ActiveInvariant (runOps exDb
        [AdminOp.activateSeason 1, AdminOp.activateRound 2, AdminOp.activateGameWeek 1]) :=
  ⟨by decide, by decide,
    activation_sequences_keep_single_active exDb
      [AdminOp.activateSeason 1, AdminOp.activateRound 2, AdminOp.activateGameWeek 1]
      (by decide) (by decide)⟩

/-! ### C8: idempotence of game-week activation -/

/-- Claim C8: Activating an existing game week twice in a row produces exactly
the state produced by activating it once (the whole database state, hence in
particular the active-entity state at every level). -/
theorem activateGameWeek_idempotent (db : DB) (G : Nat)
    (hex : ∃ g ∈ db.gameWeeks, g.id = G) :
    ∃ db1, setActiveGameWeek db G = .ok db1 ∧ setActiveGameWeek db1 G = .ok db1 := by
  obtain ⟨g0, hg0, hg0id⟩ := hex
  have hfind1 : (db.gameWeeks.find? (fun g => g.id == G)).isSome :=
    List.find?_isSome.mpr ⟨g0, hg0, by simp [hg0id]⟩
  obtain ⟨w, hw⟩ := Option.isSome_iff_exists.mp hfind1
  refine ⟨_, by rw [setActiveGameWeek, hw], ?_⟩
  set l2 := (db.gameWeeks.map (fun g => { g with isActive := false })).map
    (fun g => if g.id == G then { g with isActive := true } else g) with hl2
  have hmem2 : (if (g0.id == G) = true then
      ({ { g0 with isActive := false } with isActive := true } : GameWeek)
      else { g0 with isActive := false }) ∈ l2 := by
    rw [hl2]
    refine List.mem_map.mpr ⟨{ g0 with isActive := false }, List.mem_map.mpr ⟨g0, hg0, rfl⟩, ?_⟩
    simp [hg0id]
  have hfind2 : (l2.find? (fun g => g.id == G)).isSome := by
    refine List.find?_isSome.mpr ⟨_, hmem2, ?_⟩
    simp [hg0id]
  obtain ⟨w2, hw2⟩ := Option.isSome_iff_exists.mp hfind2
  have hstable : ((l2.map (fun g => { g with isActive := false })).map
      (fun g => if g.id == G then { g with isActive := true } else g)) = l2 := by
    rw [hl2]
    simp only [List.map_map]
    refine List.map_congr_left (fun x _ => ?_)
    dsimp only [Function.comp]
    by_cases hc : x.id = G <;> simp [hc]
  show setActiveGameWeek { db with gameWeeks := l2 } G = .ok { db with gameWeeks := l2 }
  unfold setActiveGameWeek
  dsimp only
  rw [hw2, hstable]

/-- Witness for C8 at a concrete state. -/
theorem activateGameWeek_idempotent_witness :
    ∃ g ∈ exDb.gameWeeks, g.id = 2 ∧
      ∃ db1, setActiveGameWeek exDb 2 = .ok db1 ∧ setActiveGameWeek db1 2 = .ok db1 := by
  have h := activateGameWeek_idempotent exDb 2 (by decide)
  exact ⟨⟨2, 1, 2, 20, false⟩, by decide, by decide, h⟩

/-! ### C2: the cascade performed by `setActiveSeason` -/

/-- Every season row in the post-state of a deactivate-all / activate-one
update is active exactly when its id is the selected one. -/
theorem seasons_only_active (l : List Season) (S : Nat) :
    ∀ s ∈ (l.map (fun s => { s with isActive := false })).map
        (fun s => if s.id == S then { s with isActive := true } else s),
      (s.isActive = true ↔ s.id = S) := by
  intro s hs
  rcases List.mem_map.mp hs with ⟨t, ht, rfl⟩
  rcases List.mem_map.mp ht with ⟨y, hy, rfl⟩
  by_cases hc : y.id = S <;> simp [hc]

theorem rounds_only_active (l : List Round) (rid : Nat) :
    ∀ r ∈ (l.map (fun r => { r with isActive := false })).map
        (fun r => if r.id == rid then { r with isActive := true } else r),
      (r.isActive = true ↔ r.id = rid) := by
  intro r hr
  rcases List.mem_map.mp hr with ⟨t, ht, rfl⟩
  rcases List.mem_map.mp ht with ⟨y, hy, rfl⟩
  by_cases hc : y.id = rid <;> simp [hc]

theorem gameWeeks_only_active (l : List GameWeek) (gid : Nat) :
    ∀ g ∈ (l.map (fun g => { g with isActive := false })).map
        (fun g => if g.id == gid then { g with isActive := true } else g),
      (g.isActive = true ↔ g.id = gid) := by
  intro g hg
  rcases List.mem_map.mp hg with ⟨t, ht, rfl⟩
  rcases List.mem_map.mp ht with ⟨y, hy, rfl⟩
  by_cases hc : y.id = gid <;> simp [hc]

theorem rounds_all_inactive (l : List Round) :
    ∀ r ∈ l.map (fun r => { r with isActive := false }), r.isActive = false := by
  intro r hr
  rcases List.mem_map.mp hr with ⟨y, hy, rfl⟩
  rfl

theorem gameWeeks_all_inactive (l : List GameWeek) :
    ∀ g ∈ l.map (fun g => { g with isActive := false }), g.isActive = false := by
  intro g hg
  rcases List.mem_map.mp hg with ⟨y, hy, rfl⟩
  rfl

/-- Unpack a successful `firstRoundOfSeason` over the deactivated copy of the
rounds table: the returned row corresponds to a stored round of the season
with minimal `number`. -/
theorem firstRoundOfSeason_deact_some (rounds : List Round) (S : Nat) (fr : Round)
    (h : firstRoundOfSeason (rounds.map (fun r => { r with isActive := false })) S = some fr) :
    (∃ r ∈ rounds, r.id = fr.id ∧ r.seasonId = S ∧ r.number = fr.number) ∧
      (∀ r ∈ rounds, r.seasonId = S → fr.number ≤ r.number) := by
  have hmem := minByNum_mem h
  have hmin := minByNum_le h
  rcases List.mem_filter.mp hmem with ⟨hmem2, hsid⟩
  rcases List.mem_map.mp hmem2 with ⟨y, hy, rfl⟩
  constructor
  · exact ⟨y, hy, rfl, by simpa using hsid, rfl⟩
  · intro r hr hrS
    have : ({ r with isActive := false } : Round) ∈
        (rounds.map (fun r => { r with isActive := false })).filter
          (fun r => r.seasonId == S) := by
      refine List.mem_filter.mpr ⟨List.mem_map.mpr ⟨r, hr, rfl⟩, by simp [hrS]⟩
    exact hmin ({ r with isActive := false }) this

/-- If `firstRoundOfSeason` finds nothing in the deactivated copy, the season
has no round at all. -/
theorem firstRoundOfSeason_deact_none (rounds : List Round) (S : Nat)
    (h : firstRoundOfSeason (rounds.map (fun r => { r with isActive := false })) S = none) :
    ∀ r ∈ rounds, r.seasonId ≠ S := by
  intro r hr hrS
  have hmem : ({ r with isActive := false } : Round) ∈
      (rounds.map (fun r => { r with isActive := false })).filter
        (fun r => r.seasonId == S) :=
    List.mem_filter.mpr ⟨List.mem_map.mpr ⟨r, hr, rfl⟩, by simp [hrS]⟩
  obtain ⟨a, ha⟩ := @minByNum_isSome _ Round.number _ (List.ne_nil_of_mem hmem)
  rw [firstRoundOfSeason] at h
  rw [h] at ha
  exact Option.noConfusion ha

theorem firstGameWeekOfRound_deact_some (gameWeeks : List GameWeek) (rid : Nat) (fg : GameWeek)
    (h : firstGameWeekOfRound (gameWeeks.map (fun g => { g with isActive := false })) rid =
      some fg) :
    (∃ g ∈ gameWeeks, g.id = fg.id ∧ g.roundId = rid ∧ g.number = fg.number) ∧
      (∀ g ∈ gameWeeks, g.roundId = rid → fg.number ≤ g.number) := by
  have hmem := minByNum_mem h
  have hmin := minByNum_le h
  rcases List.mem_filter.mp hmem with ⟨hmem2, hrid⟩
  rcases List.mem_map.mp hmem2 with ⟨y, hy, rfl⟩
  constructor
  · exact ⟨y, hy, rfl, by simpa using hrid, rfl⟩
  · intro g hg hgR
    have : ({ g with isActive := false } : GameWeek) ∈
        (gameWeeks.map (fun g => { g with isActive := false })).filter
          (fun g => g.roundId == rid) :=
      List.mem_filter.mpr ⟨List.mem_map.mpr ⟨g, hg, rfl⟩, by simp [hgR]⟩
    exact hmin ({ g with isActive := false }) this

theorem firstGameWeekOfRound_deact_none (gameWeeks : List GameWeek) (rid : Nat)
    (h : firstGameWeekOfRound (gameWeeks.map (fun g => { g with isActive := false })) rid =
      none) :
    ∀ g ∈ gameWeeks, g.roundId ≠ rid := by
  intro g hg hgR
  have hmem : ({ g with isActive := false } : GameWeek) ∈
      (gameWeeks.map (fun g => { g with isActive := false })).filter
        (fun g => g.roundId == rid) :=
    List.mem_filter.mpr ⟨List.mem_map.mpr ⟨g, hg, rfl⟩, by simp [hgR]⟩
  obtain ⟨a, ha⟩ := @minByNum_isSome _ GameWeek.number _ (List.ne_nil_of_mem hmem)
  rw [firstGameWeekOfRound] at h
  rw [h] at ha
  exact Option.noConfusion ha

/-- Every season row is active exactly when its id is `sid`. -/
def onlyActiveSeasonIs (db : DB) (sid : Nat) : Prop :=
  ∀ s ∈ db.seasons, (s.isActive = true ↔ s.id = sid)

/-- Every round row is active exactly when its id is `rid`. -/
def onlyActiveRoundIs (db : DB) (rid : Nat) : Prop :=
  ∀ r ∈ db.rounds, (r.isActive = true ↔ r.id = rid)

/-- Every game-week row is active exactly when its id is `gid`. -/
def onlyActiveGameWeekIs (db : DB) (gid : Nat) : Prop :=
  ∀ g ∈ db.gameWeeks, (g.isActive = true ↔ g.id = gid)

/-- No round row is active. -/
def noActiveRound (db : DB) : Prop := ∀ r ∈ db.rounds, r.isActive = false

/-- No game-week row is active. -/
def noActiveGameWeek (db : DB) : Prop := ∀ g ∈ db.gameWeeks, g.isActive = false

/-- Claim C2: After `setActiveSeason S` succeeds: S is the only active season;
if S has no round, no round and no game week is active; if S has a round, the
lowest-numbered round of S is the only active round, and then: if that round
has no game week none is active, otherwise its lowest-numbered game week is
the only active game week. -/
theorem setActiveSeason_cascade_spec (db db' : DB) (S : Nat)
    (h : setActiveSeason db S = .ok db') :
    onlyActiveSeasonIs db' S ∧
      ((∀ r ∈ db.rounds, r.seasonId ≠ S) → noActiveRound db' ∧ noActiveGameWeek db') ∧
      (∀ r0 ∈ db.rounds, r0.seasonId = S →
        ∃ rid rnum,
          (∃ r ∈ db.rounds, r.id = rid ∧ r.seasonId = S ∧ r.number = rnum) ∧
            (∀ r ∈ db.rounds, r.seasonId = S → rnum ≤ r.number) ∧
            onlyActiveRoundIs db' rid ∧
            ((∀ g ∈ db.gameWeeks, g.roundId ≠ rid) → noActiveGameWeek db') ∧
            (∀ g0 ∈ db.gameWeeks, g0.roundId = rid →
              ∃ gid gnum,
                (∃ g ∈ db.gameWeeks, g.id = gid ∧ g.roundId = rid ∧ g.number = gnum) ∧
                  (∀ g ∈ db.gameWeeks, g.roundId = rid → gnum ≤ g.number) ∧
                  onlyActiveGameWeekIs db' gid)) := by
  unfold setActiveSeason at h
  split at h
  · exact absurd h (by simp)
  · dsimp only at h
    split at h
    · rename_i hfr
      cases h
      refine ⟨seasons_only_active db.seasons S, fun _ => ?_, fun r0 hr0 hr0S => ?_⟩
      · exact ⟨rounds_all_inactive db.rounds, gameWeeks_all_inactive db.gameWeeks⟩
      · exact absurd hr0S (firstRoundOfSeason_deact_none db.rounds S hfr r0 hr0)
    · rename_i firstRound hfr
      obtain ⟨⟨y, hy, hyid, hyS, hynum⟩, hmin⟩ :=
        firstRoundOfSeason_deact_some db.rounds S firstRound hfr
      split at h
      · rename_i hfg
        cases h
        refine ⟨seasons_only_active db.seasons S, fun hnone => ?_, fun r0 hr0 hr0S => ?_⟩
        · exact absurd hyS (hnone y hy)
        · refine ⟨firstRound.id, firstRound.number,
            ⟨y, hy, hyid, hyS, hynum⟩, hmin,
            rounds_only_active db.rounds firstRound.id, fun _ => ?_, fun g0 hg0 hg0R => ?_⟩
          · exact gameWeeks_all_inactive db.gameWeeks
          · exact absurd hg0R
              (firstGameWeekOfRound_deact_none db.gameWeeks firstRound.id hfg g0 hg0)
      · rename_i firstGameWeek hfg
        obtain ⟨⟨z, hz, hzid, hzR, hznum⟩, hgmin⟩ :=
          firstGameWeekOfRound_deact_some db.gameWeeks firstRound.id firstGameWeek hfg
        cases h
        refine ⟨seasons_only_active db.seasons S, fun hnone => ?_, fun r0 hr0 hr0S => ?_⟩
        · exact absurd hyS (hnone y hy)
        · refine ⟨firstRound.id, firstRound.number,
            ⟨y, hy, hyid, hyS, hynum⟩, hmin,
            rounds_only_active db.rounds firstRound.id, fun hgw => ?_, fun g0 hg0 hg0R => ?_⟩
          · exact absurd hzR (hgw z hz)
          · exact ⟨firstGameWeek.id, firstGameWeek.number,
              ⟨z, hz, hzid, hzR, hznum⟩, hgmin,
              gameWeeks_only_active db.gameWeeks firstGameWeek.id⟩

/-- The state produced by `setActiveSeason exDb 1`. -/
def exDbAfterSeason : DB where
  seasons := [⟨1, "2024/25", 0, 100, true⟩]
  rounds := [⟨1, 1, 1, true⟩, ⟨2, 1, 2, false⟩]
  gameWeeks := [⟨1, 1, 1, 10, true⟩, ⟨2, 1, 2, 20, false⟩, ⟨3, 2, 1, 30, false⟩]
  teams := []
  fixtures := []
  picks := []
  nextPickId := 1

/-! ### C3, C6, C10: the available-teams endpoint -/

/-- Membership in the current-week team pool list is exactly having a fixture
assigned to the game week on either side. -/
theorem mem_weekPool_iff (db : DB) (gwid tid : Nat) :
    (((getFixturesByGameWeek db gwid).map Fixture.home_team_id ++
      (getFixturesByGameWeek db gwid).map Fixture.away_team_id).contains tid = true) ↔
      ∃ f ∈ db.fixtures, f.game_week_id = some gwid ∧
        (f.home_team_id = tid ∨ f.away_team_id = tid) := by
  simp only [List.contains, List.elem_iff, List.mem_append, List.mem_map,
    getFixturesByGameWeek, List.mem_filter, beq_iff_eq]
  constructor
  · rintro (⟨f, ⟨hf, hgw⟩, hid⟩ | ⟨f, ⟨hf, hgw⟩, hid⟩)
    · exact ⟨f, hf, hgw, Or.inl hid⟩
    · exact ⟨f, hf, hgw, Or.inr hid⟩
  · rintro ⟨f, hf, hgw, hid | hid⟩
    · exact Or.inl ⟨f, ⟨hf, hgw⟩, hid⟩
    · exact Or.inr ⟨f, ⟨hf, hgw⟩, hid⟩

/-- Membership in the previously-picked team-id list is exactly having a pick
in some game week of the round. -/
theorem mem_prevPicked_iff (db : DB) (uid rid tid : Nat) :
    (((getPicksByGameWeeks db uid
        ((getGameWeeksByRound db rid).map GameWeek.id)).map Pick.teamId).contains tid =
      true) ↔
      ∃ p ∈ db.picks, p.userId = uid ∧ p.teamId = tid ∧
        ∃ g ∈ db.gameWeeks, g.roundId = rid ∧ p.gameWeekId = g.id := by
  simp only [List.contains, List.elem_iff, List.mem_map,
    getPicksByGameWeeks, getGameWeeksByRound, List.mem_filter, Bool.and_eq_true,
    beq_iff_eq, List.elem_eq_mem, decide_eq_true_eq]
  aesop

/-- A complemented Boolean flag agrees with the negation of the Prop the
original flag decides. -/
theorem not_flag_iff {c b : Bool} {P : Prop} (h1 : c = true ↔ P) (hb : (!c) = b) :
    b = true ↔ ¬ P := by
  cases c <;> simp_all

/-- Converse of `not_flag_iff`. -/
theorem flag_of_not_iff {c b : Bool} {P : Prop} (h1 : c = true ↔ P)
    (h2 : b = true ↔ ¬ P) : (!c) = b := by
  cases c <;> cases b <;> simp_all

/-- Claim C3: When the active context resolves, `GET /api/available-teams`
returns exactly the teams having a fixture in the active game week, each
flagged available precisely when the user has no pick of that team in any game
week of the active round; teams without a fixture this week are omitted. -/
theorem availableTeams_spec (db : DB) (uid : Nat) (season : Season) (round : Round)
    (gameWeek : GameWeek) (res : List AvailableTeam)
    (hs : getActiveSeason db = some season)
    (hr : getActiveRound db season.id = some round)
    (hg : getActiveGameWeek db round.id = some gameWeek)
    (h : availableTeams db uid = .ok res) :
    ∀ t b, (AvailableTeam.mk t b) ∈ res ↔
      (t ∈ db.teams ∧
        (∃ f ∈ db.fixtures, f.game_week_id = some gameWeek.id ∧
          (f.home_team_id = t.id ∨ f.away_team_id = t.id)) ∧
        (b = true ↔ ¬ ∃ p ∈ db.picks, p.userId = uid ∧ p.teamId = t.id ∧
          ∃ g ∈ db.gameWeeks, g.roundId = round.id ∧ p.gameWeekId = g.id)) := by
  unfold availableTeams at h
  simp only [hs, hr, hg] at h
  cases h
  intro t b
  simp only [List.mem_map, List.mem_filter, AvailableTeam.mk.injEq]
  constructor
  · rintro ⟨t', ⟨ht'm, ht'pool⟩, rfl, hb⟩
    exact ⟨ht'm, (mem_weekPool_iff db gameWeek.id t'.id).mp ht'pool,
      not_flag_iff (mem_prevPicked_iff db uid round.id t'.id) hb⟩
  · rintro ⟨htm, hpool, hb⟩
    exact ⟨t, ⟨htm, (mem_weekPool_iff db gameWeek.id t.id).mpr hpool⟩, rfl,
      flag_of_not_iff (mem_prevPicked_iff db uid round.id t.id) hb⟩

/-- Season row used in the eligibility examples. -/
def exSeason2 : Season := ⟨1, "2024/25", 0, 100, true⟩

/-- Round row used in the eligibility examples. -/
def exRound2 : Round := ⟨1, 1, 1, true⟩

/-- Active game week (week 2) used in the eligibility examples. -/
def exGameWeek2 : GameWeek := ⟨2, 1, 2, 20, true⟩

/-- Team rows used in the eligibility examples. -/
def exTeamA : Team := ⟨10, "Arsenal", "Arsenal", "ARS", "a.png"⟩

def exTeamB : Team := ⟨11, "Bolton", "Bolton", "BOL", "b.png"⟩

def exTeamC : Team := ⟨12, "Chelsea", "Chelsea", "CHE", "c.png"⟩

def exTeamD : Team := ⟨13, "Derby", "Derby", "DER", "d.png"⟩

/-- Eligibility example: season 1 / round 1 active, game week 2 active (game
week 1 already played), four teams, three fixtures, and user 1 already holding
a pick of team 10 from game week 1. -/
def exDb2 : DB where
  seasons := [exSeason2]
  rounds := [exRound2]
  gameWeeks := [⟨1, 1, 1, 10, false⟩, exGameWeek2]
  teams := [exTeamA, exTeamB, exTeamC, exTeamD]
  fixtures :=
    [⟨1, some 101, some 1, 10, 11, some 2, some 0, 5, "FINISHED", false, some "HOME_TEAM",
        none, 1, some 1⟩,
      ⟨2, some 102, some 2, 10, 12, none, none, 15, "SCHEDULED", false, none, none, 1, some 1⟩,
      ⟨3, some 103, some 2, 13, 11, none, none, 16, "SCHEDULED", false, none, none, 1, some 1⟩]
  picks := [⟨1, 1, 10, 1, 1, 1, 1, some 101, true, none, 7⟩]
  nextPickId := 2

/-- The response `GET /api/available-teams` computes on `exDb2` for user 1. -/
def exRes2 : List AvailableTeam :=
  [⟨exTeamA, false⟩, ⟨exTeamB, true⟩, ⟨exTeamC, true⟩, ⟨exTeamD, true⟩]

/-- Witness for C3: the characterization instantiated on `exDb2`, user 1,
team `exTeamA` (picked in week 1, hence flagged unavailable). -/
theorem availableTeams_spec_witness :
    (AvailableTeam.mk exTeamA false) ∈ exRes2 ↔
      (exTeamA ∈ exDb2.teams ∧
        (∃ f ∈ exDb2.fixtures, f.game_week_id = some exGameWeek2.id ∧
          (f.home_team_id = exTeamA.id ∨ f.away_team_id = exTeamA.id)) ∧
        (false = true ↔ ¬ ∃ p ∈ exDb2.picks, p.userId = 1 ∧ p.teamId = exTeamA.id ∧
          ∃ g ∈ exDb2.gameWeeks, g.roundId = exRound2.id ∧ p.gameWeekId = g.id)) :=
  availableTeams_spec exDb2 1 exSeason2 exRound2 exGameWeek2 exRes2 rfl rfl rfl rfl
    exTeamA false

/-- The ordering the spec prescribes for the available-teams response,
modelled from the spec's words: available teams before unavailable ones, ties
broken alphabetically by name. -/
def specOrderedPair (a b : AvailableTeam) : Prop :=
  (a.isAvailable = true ∧ b.isAvailable = false) ∨
    (a.isAvailable = b.isAvailable ∧ a.team.name ≤ b.team.name)

instance : DecidableRel specOrderedPair := fun a b => by
  unfold specOrderedPair; infer_instance

/-- A list sorted the way the spec describes. -/
def specSorted (l : List AvailableTeam) : Prop := l.Pairwise specOrderedPair

instance : DecidablePred specSorted := fun l => by
  unfold specSorted; exact List.instDecidablePairwise l

/-- Counterexample to C6: On `exDb2` the endpoint returns the unavailable
team Arsenal first (team-table order), so the response violates the claimed
available-first ordering. -/
theorem availableTeams_not_sorted_counterexample :
    availableTeams exDb2 1 = .ok exRes2 ∧ ¬ specSorted exRes2 := by
  constructor
  · rfl
  · intro hs
    rcases hs with _ | ⟨hpair, _⟩
    rcases hpair ⟨exTeamB, true⟩ (by simp) with ⟨hav, _⟩ | ⟨heq, _⟩
    · exact Bool.noConfusion hav
    · exact Bool.noConfusion heq

/-- The response list is always a filter of the teams table decorated with an
availability flag. -/
theorem availableTeams_shape (db : DB) (uid : Nat) (res : List AvailableTeam)
    (h : availableTeams db uid = .ok res) :
    ∃ (p : Team → Bool) (c : Team → Bool),
      res = (db.teams.filter p).map (fun t => AvailableTeam.mk t (c t)) := by
  unfold availableTeams at h
  split at h
  · exact absurd h (by simp)
  · split at h
    · exact absurd h (by simp)
    · split at h
      · exact absurd h (by simp)
      · dsimp only at h
        exact ⟨_, _, (Except.ok.inj h).symm⟩

/-- Amended claim C6: The endpoint applies no sorting: the teams of the
response appear in team-table order (the response's team sequence is a
subsequence of the stored teams list); the available-first alphabetical sort
is performed by the client, not by `GET /api/available-teams`. -/
theorem availableTeams_table_order (db : DB) (uid : Nat) (res : List AvailableTeam)
    (h : availableTeams db uid = .ok res) :
    List.Sublist (res.map AvailableTeam.team) db.teams := by
  obtain ⟨p, c, rfl⟩ := availableTeams_shape db uid res h
  rw [List.map_map]
  have hid : (db.teams.filter p).map
      (AvailableTeam.team ∘ fun t => AvailableTeam.mk t (c t)) = db.teams.filter p :=
    (List.map_congr_left (fun x _ => rfl)).trans (List.map_id _)
  rw [hid]
  exact List.filter_sublist _

/-- Witness for the amended C6 at a concrete state. -/
theorem availableTeams_table_order_witness :
    List.Sublist (exRes2.map AvailableTeam.team) exDb2.teams :=
  availableTeams_table_order exDb2 1 exRes2 rfl

/-- Replace status, scores, kickoff and winner of every fixture, and the
deadline of every game week, by arbitrary values (keyed on the row id);
everything the eligibility engine reads is untouched. -/
def retimeDB (st : Nat → String) (hsc asc : Nat → Option Int) (kf : Nat → Int)
    (wn : Nat → Option String) (dl : Nat → Int) (db : DB) : DB :=
  { db with
    fixtures := db.fixtures.map (fun f =>
      { f with status := st f.id, home_score := hsc f.id, away_score := asc f.id,
               kickoff := kf f.id, winner := wn f.id }),
    gameWeeks := db.gameWeeks.map (fun g => { g with deadline := dl g.id }) }

/-- The available-teams response is invariant under arbitrary replacement of
fixture status, scores, kickoff, winner and game-week deadlines. -/
theorem availableTeams_retime_eq
    (st : Nat → String) (hsc asc : Nat → Option Int) (kf : Nat → Int)
    (wn : Nat → Option String) (dl : Nat → Int) (db : DB) (uid : Nat) :
    availableTeams (retimeDB st hsc asc kf wn dl db) uid = availableTeams db uid := by
  have hseas : getActiveSeason (retimeDB st hsc asc kf wn dl db) = getActiveSeason db := rfl
  unfold availableTeams
  rw [hseas]
  cases hs : getActiveSeason db with
  | none => rfl
  | some season =>
      dsimp only
      have hround : getActiveRound (retimeDB st hsc asc kf wn dl db) season.id =
          getActiveRound db season.id := rfl
      rw [hround]
      cases hr : getActiveRound db season.id with
      | none => rfl
      | some round =>
          dsimp only
          have hgw : getActiveGameWeek (retimeDB st hsc asc kf wn dl db) round.id =
              (getActiveGameWeek db round.id).map (fun g => { g with deadline := dl g.id }) := by
            unfold getActiveGameWeek retimeDB
            dsimp only
            rw [List.find?_map]
            rfl
          rw [hgw]
          cases hg : getActiveGameWeek db round.id with
          | none => rfl
          | some gameWeek =>
              dsimp only [Option.map_some']
              have hfx : getFixturesByGameWeek (retimeDB st hsc asc kf wn dl db) gameWeek.id =
                  (getFixturesByGameWeek db gameWeek.id).map (fun f =>
                    { f with status := st f.id, home_score := hsc f.id,
                             away_score := asc f.id, kickoff := kf f.id,
                             winner := wn f.id }) := by
                unfold getFixturesByGameWeek retimeDB
                dsimp only
                rw [List.filter_map]
                rfl
              have hgwr : getGameWeeksByRound (retimeDB st hsc asc kf wn dl db) round.id =
                  (getGameWeeksByRound db round.id).map (fun g =>
                    { g with deadline := dl g.id }) := by
                unfold getGameWeeksByRound retimeDB
                dsimp only
                rw [List.filter_map]
                rfl
              rw [hfx, hgwr]
              simp only [List.map_map]
              rfl


/-- Eligibility example with no picks and finished/postponed fixtures in the
active game week. -/
def exDb3 : DB :=
  { exDb2 with
    fixtures :=
      [⟨1, some 101, some 1, 10, 11, some 2, some 0, 5, "FINISHED", false, some "HOME_TEAM",
          none, 1, some 1⟩,
        ⟨2, some 102, some 2, 10, 12, some 1, some 1, 15, "FINISHED", false, none, none, 1,
          some 1⟩,
        ⟨3, some 103, some 2, 13, 11, none, none, 16, "POSTPONED", false, none, none, 1,
          some 1⟩],
    picks := [],
    nextPickId := 1 }

/-- The response computed on `exDb3` for user 1: every team of the week is
present and available although its fixture is finished or postponed. -/
def exRes3 : List AvailableTeam :=
  [⟨exTeamA, true⟩, ⟨exTeamB, true⟩, ⟨exTeamC, true⟩, ⟨exTeamD, true⟩]

/-- Claim C10: The available-teams computation never reads fixture status,
scores, kickoff, winner, or the game week's deadline: replacing all of them
arbitrarily leaves the response unchanged, so availability depends only on
fixture assignment and the user's round pick history.  Concretely, on `exDb3`
the teams whose only current-week fixtures are `FINISHED` or `POSTPONED` are
all returned and marked available. -/
theorem availableTeams_ignores_status_scores_deadline :
    (∀ (st : Nat → String) (hsc asc : Nat → Option Int) (kf : Nat → Int)
      (wn : Nat → Option String) (dl : Nat → Int) (db : DB) (uid : Nat),
      availableTeams (retimeDB st hsc asc kf wn dl db) uid = availableTeams db uid) ∧
      availableTeams exDb3 1 = .ok exRes3 :=
  ⟨availableTeams_retime_eq, rfl⟩

/-! ### C4, C5, C7, C9: submitting a pick -/


/-- Amended claim C4: On success, the created pick's `gameWeekId`, `roundId`
and `seasonId` are the ids of the *resolved current context* (the active game
week, round and season) — not the fixture's stored assignment — and the pick
carries `pickedAt = now` and `isCorrect = null`. -/
theorem submitPick_uses_context_ids (db : DB) (uid teamId fixtureId : Nat) (now : Int)
    (season : Season) (round : Round) (gameWeek : GameWeek) (db2 : DB) (p : Pick)
    (hs : getActiveSeason db = some season)
    (hr : getActiveRound db season.id = some round)
    (hg : getActiveGameWeek db round.id = some gameWeek)
    (h : submitPick db uid teamId fixtureId now = .ok (db2, p)) :
    p.gameWeekId = gameWeek.id ∧ p.roundId = round.id ∧ p.seasonId = season.id ∧
      p.pickedAt = now ∧ p.isCorrect = none := by
  unfold submitPick at h
  simp only [hs, hr, hg] at h
  split at h
  · exact absurd h (by simp)
  · split at h
    · exact absurd h (by simp)
    · unfold createPick at h
      split at h
      · exact absurd h (by simp)
      · cases h
        exact ⟨rfl, rfl, rfl, rfl, rfl⟩

/-- State whose only fixture is stored with game-week assignment 99 while the
active game week is 2. -/
def exDb4 : DB :=
  { exDb2 with
    fixtures :=
      [⟨2, some 102, some 99, 10, 12, none, none, 15, "SCHEDULED", false, none, none, 1,
        some 1⟩],
    picks := [],
    nextPickId := 1 }

/-- The fixture stored in `exDb4`. -/
def exFix4 : Fixture :=
  ⟨2, some 102, some 99, 10, 12, none, none, 15, "SCHEDULED", false, none, none, 1, some 1⟩

/-- The pick `submitPick exDb4 1 10 2 0` creates. -/
def exPick4 : Pick := ⟨1, 1, 10, 2, 1, 1, 2, some 102, true, none, 0⟩

/-- The state after `submitPick exDb4 1 10 2 0`. -/
def exDb4After : DB := { exDb4 with picks := [exPick4], nextPickId := 2 }

/-- Counterexample to C4: The fixture's stored assignment is game week 99,
yet the created pick records game week 2 (the resolved active context), so
the pick's ids do not come from the fixture's stored assignment. -/
theorem submitPick_fixture_assignment_counterexample :
    submitPick exDb4 1 10 2 0 = .ok (exDb4After, exPick4) ∧
      exDb4.fixtures.find? (fun f => f.id == 2) = some exFix4 ∧
      exFix4.game_week_id = some 99 ∧ exPick4.gameWeekId = 2 ∧
      some exPick4.gameWeekId ≠ exFix4.game_week_id := by
  exact ⟨rfl, rfl, rfl, rfl, by decide⟩

/-- Counterexample to C5: No fixture assigned to the active game week (2)
involves team 10, yet `submitPick` with the caller-supplied fixture id 2
succeeds instead of failing: the fixture lookup is by id only and is not
scoped to the active game week. -/
theorem submitPick_not_scoped_to_active_week_counterexample :
    getActiveGameWeek exDb4 1 = some exGameWeek2 ∧
      (∀ f ∈ exDb4.fixtures,
        ¬(f.game_week_id = some exGameWeek2.id ∧
          (f.home_team_id = 10 ∨ f.away_team_id = 10))) ∧
      submitPick exDb4 1 10 2 0 = .ok (exDb4After, exPick4) := by
  exact ⟨rfl, by decide, rfl⟩

/-- Amended claim C5: `submitPick` validates the picked team against the
*caller-supplied* fixture: with the active context resolved and the fixture
found by id (in the whole fixtures table, not scoped to the active game
week), it fails with the team-not-in-fixture error exactly when the team is
on neither side of that fixture, and on success the pick references that
fixture with `isHomeTeam` true exactly when the team is its home side. -/
theorem submitPick_checks_supplied_fixture (db : DB) (uid teamId fixtureId : Nat) (now : Int)
    (season : Season) (round : Round) (gameWeek : GameWeek) (fixture : Fixture)
    (hs : getActiveSeason db = some season)
    (hr : getActiveRound db season.id = some round)
    (hg : getActiveGameWeek db round.id = some gameWeek)
    (hf : db.fixtures.find? (fun f => f.id == fixtureId) = some fixture) :
    (submitPick db uid teamId fixtureId now =
        .error "Selected team is not part of the fixture" ↔
      (fixture.home_team_id ≠ teamId ∧ fixture.away_team_id ≠ teamId)) ∧
      (∀ db2 p, submitPick db uid teamId fixtureId now = .ok (db2, p) →
        p.fixtureId = fixtureId ∧ (p.isHomeTeam = true ↔ fixture.home_team_id = teamId)) := by
  unfold submitPick
  simp only [hs, hr, hg, hf]
  constructor
  · constructor
    · intro herr
      by_contra hcon
      rw [not_and_or] at hcon
      have hcond : (!(fixture.home_team_id == teamId) && !(fixture.away_team_id == teamId)) =
          false := by
        rcases hcon with hcon | hcon
        · rw [not_ne_iff] at hcon
          simp [hcon]
        · rw [not_ne_iff] at hcon
          simp [hcon]
      rw [hcond] at herr
      simp only [Bool.false_eq_true, if_false] at herr
      unfold createPick at herr
      split at herr
      · exact absurd (Except.error.inj herr) (by decide)
      · exact Except.noConfusion herr
    · rintro ⟨hh, ha⟩
      have hcond : (!(fixture.home_team_id == teamId) && !(fixture.away_team_id == teamId)) =
          true := by simp [hh, ha]
      rw [hcond]
      rfl
  · intro db2 p hok
    split at hok
    · exact absurd hok (by simp)
    · rename_i hcond
      unfold createPick at hok
      split at hok
      · exact absurd hok (by simp)
      · cases hok
        refine ⟨rfl, ?_⟩
        show (fixture.home_team_id == teamId) = true ↔ fixture.home_team_id = teamId
        exact beq_iff_eq


/-- The fixture of the active game week in `exDb2` involving team 10. -/
def exFix2 : Fixture :=
  ⟨2, some 102, some 2, 10, 12, none, none, 15, "SCHEDULED", false, none, none, 1, some 1⟩

/-- The pick `submitPick exDb2 1 10 2 0` creates. -/
def exPick9 : Pick := ⟨2, 1, 10, 2, 1, 1, 2, some 102, true, none, 0⟩

/-- The state after `submitPick exDb2 1 10 2 0`. -/
def exDb2After : DB := { exDb2 with picks := exDb2.picks ++ [exPick9], nextPickId := 3 }

/-- Witness for the amended C4 at a concrete state. -/
theorem submitPick_uses_context_ids_witness :
    exPick9.gameWeekId = exGameWeek2.id ∧ exPick9.roundId = exRound2.id ∧
      exPick9.seasonId = exSeason2.id ∧ exPick9.pickedAt = 0 ∧ exPick9.isCorrect = none :=
  submitPick_uses_context_ids exDb2 1 10 2 0 exSeason2 exRound2 exGameWeek2
    exDb2After exPick9 rfl rfl rfl rfl

/-- Witness for the amended C5 at a concrete state. -/
theorem submitPick_checks_supplied_fixture_witness :
    (submitPick exDb2 1 10 2 0 =
        .error "Selected team is not part of the fixture" ↔
      (exFix2.home_team_id ≠ 10 ∧ exFix2.away_team_id ≠ 10)) ∧
      (∀ db2 p, submitPick exDb2 1 10 2 0 = .ok (db2, p) →
        p.fixtureId = 2 ∧ (p.isHomeTeam = true ↔ exFix2.home_team_id = 10)) :=
  submitPick_checks_supplied_fixture exDb2 1 10 2 0 exSeason2 exRound2 exGameWeek2 exFix2
    rfl rfl rfl rfl

/-- No two picks share the `(userId, gameWeekId)` pair — the schema's
uniqueness constraint. -/
def PairwiseDistinctUserWeek (l : List Pick) : Prop :=
  l.Pairwise (fun p q => ¬(p.userId = q.userId ∧ p.gameWeekId = q.gameWeekId))

/-- Claim C7: At most one pick per `(user, game week)` pair can exist: when the
user already holds a pick for the active game week, a further `submitPick`
that reaches the insert (context resolved, fixture found, team on one of its
sides) fails with the uniqueness violation and, the operation being pure on
failure, the stored picks are unchanged; and any successful `submitPick`
preserves pairwise distinctness of `(userId, gameWeekId)` over the picks
table. -/
theorem submitPick_duplicate_rejected (db : DB) (uid teamId fixtureId : Nat) (now : Int)
    (season : Season) (round : Round) (gameWeek : GameWeek) (fixture : Fixture)
    (hs : getActiveSeason db = some season)
    (hr : getActiveRound db season.id = some round)
    (hg : getActiveGameWeek db round.id = some gameWeek)
    (hf : db.fixtures.find? (fun f => f.id == fixtureId) = some fixture)
    (hteam : fixture.home_team_id = teamId ∨ fixture.away_team_id = teamId) :
    ((∃ p0 ∈ db.picks, p0.userId = uid ∧ p0.gameWeekId = gameWeek.id) →
        submitPick db uid teamId fixtureId now = .error "DuplicatePick") ∧
      (∀ db2 p, submitPick db uid teamId fixtureId now = .ok (db2, p) →
        PairwiseDistinctUserWeek db.picks → PairwiseDistinctUserWeek db2.picks) := by
  unfold submitPick
  simp only [hs, hr, hg, hf]
  have hcond : (!(fixture.home_team_id == teamId) && !(fixture.away_team_id == teamId)) =
      false := by
    rcases hteam with h | h <;> simp [h]
  rw [hcond]
  simp only [Bool.false_eq_true, if_false]
  constructor
  · rintro ⟨p0, hp0, hpu, hpw⟩
    unfold createPick
    rw [if_pos]
    exact List.any_eq_true.mpr ⟨p0, hp0, by simp [hpu, hpw]⟩
  · intro db2 p hok hdist
    unfold createPick at hok
    split at hok
    · exact absurd hok (by simp)
    · rename_i hany
      cases hok
      unfold PairwiseDistinctUserWeek
      rw [List.pairwise_append]
      refine ⟨hdist, List.pairwise_singleton _ _, ?_⟩
      intro q hq r hr
      have hq2 := List.any_eq_false.mp (Bool.not_eq_true _ ▸ hany) q hq
      simp only [List.mem_singleton] at hr
      subst hr
      rintro ⟨hqu, hqw⟩
      exact hq2 (by simp [hqu, hqw])

/-- State in which user 1 already holds a pick in the active game week 2. -/
def exDb5 : DB :=
  { exDb2 with picks := [⟨1, 1, 13, 2, 1, 1, 3, some 103, true, none, 8⟩], nextPickId := 2 }

/-- Witness for C7 at a concrete state. -/
theorem submitPick_duplicate_rejected_witness :
    ((∃ p0 ∈ exDb5.picks, p0.userId = 1 ∧ p0.gameWeekId = exGameWeek2.id) →
        submitPick exDb5 1 10 2 0 = .error "DuplicatePick") ∧
      (∀ db2 p, submitPick exDb5 1 10 2 0 = .ok (db2, p) →
        PairwiseDistinctUserWeek exDb5.picks → PairwiseDistinctUserWeek db2.picks) :=
  submitPick_duplicate_rejected exDb5 1 10 2 0 exSeason2 exRound2 exGameWeek2 exFix2
    rfl rfl rfl rfl (Or.inl rfl)

/-- Claim C9: `submitPick` does not re-validate against round history: in
`exDb2` user 1 already picked team 10 in game week 1 of the active round, team
10 plays in fixture 2 of the active game week 2, and `submitPick` nevertheless
succeeds, leaving two picks of team 10 in the same round (in different game
weeks). -/
theorem submitPick_allows_repick_within_round :
    (⟨1, 1, 10, 1, 1, 1, 1, some 101, true, none, 7⟩ : Pick) ∈ exDb2.picks ∧
      exFix2 ∈ exDb2.fixtures ∧ exFix2.game_week_id = some exGameWeek2.id ∧
      exFix2.home_team_id = 10 ∧
      submitPick exDb2 1 10 2 0 = .ok (exDb2After, exPick9) ∧
      exPick9.teamId = 10 ∧ exPick9.roundId = 1 ∧
      (⟨1, 1, 10, 1, 1, 1, 1, some 101, true, none, 7⟩ : Pick) ∈ exDb2After.picks ∧
      exPick9 ∈ exDb2After.picks ∧
      (⟨1, 1, 10, 1, 1, 1, 1, some 101, true, none, 7⟩ : Pick).gameWeekId ≠
        exPick9.gameWeekId := by
  refine ⟨by decide, by decide, rfl, rfl, rfl, rfl, rfl, by decide, by decide, by decide⟩

/-- Witness for C2 at a concrete state. -/
theorem setActiveSeason_cascade_spec_witness :
    onlyActiveSeasonIs exDbAfterSeason 1 ∧
      ((∀ r ∈ exDb.rounds, r.seasonId ≠ 1) →
        noActiveRound exDbAfterSeason ∧ noActiveGameWeek exDbAfterSeason) ∧
      (∀ r0 ∈ exDb.rounds, r0.seasonId = 1 →
        ∃ rid rnum,
          (∃ r ∈ exDb.rounds, r.id = rid ∧ r.seasonId = 1 ∧ r.number = rnum) ∧
            (∀ r ∈ exDb.rounds, r.seasonId = 1 → rnum ≤ r.number) ∧
            onlyActiveRoundIs exDbAfterSeason rid ∧
            ((∀ g ∈ exDb.gameWeeks, g.roundId ≠ rid) → noActiveGameWeek exDbAfterSeason) ∧
            (∀ g0 ∈ exDb.gameWeeks, g0.roundId = rid →
              ∃ gid gnum,
                (∃ g ∈ exDb.gameWeeks, g.id = gid ∧ g.roundId = rid ∧ g.number = gnum) ∧
                  (∀ g ∈ exDb.gameWeeks, g.roundId = rid → gnum ≤ g.number) ∧
                  onlyActiveGameWeekIs exDbAfterSeason gid)) :=
  setActiveSeason_cascade_spec exDb exDbAfterSeason 1 (by rfl)

end LPS
